import Mathlib

/-!
Shallow embedding of `TEMPLATE_StoredProcedure.py` (function `create_sp_doc`).

The source builds a docx document by appending block-level content in a fixed
order; styling calls (fonts, colors, margins, borders) carry no decision logic
and are not modelled.  Each docx mutation is embedded as the emission of one
abstract `Block`; `create_sp_doc` returns the ordered list of emitted blocks.

Python truthiness conventions used by the source are embedded as follows:
* a prose string argument tested with `if s:` is a `String` tested `!= ""`
  (the source never distinguishes `None` from `""` for these fields);
* a list tested with `if l:` is a `List` tested `≠ []`;
* the `dependencies` dict argument is `Option Deps` where `Deps` records which
  of the two keys `tables` / `procedures` are present (`Option (List String)`);
  `bool(dependencies)` is `depsTruthy`: the dict is truthy when it is present
  and has at least one key;
* a dict key tested with `'k' in d and d['k']` is an `Option` field tested
  present with non-empty value; a key tested only with `'k' in d` is tested
  `isSome`.

Section headers rendered as `f"{n}. TITLE"` are embedded structurally as
`Block.header (some n) "TITLE"`; the two headers that carry no running number
("5 MOST RECENT CHANGES" is literal text) use `Block.header none`.
-/

/-- One entry of `recentChanges`: a dict `{date, summary, refDoc}`. -/
structure Change where
  date : String
  summary : String
  refDoc : String
deriving Repr, DecidableEq

/-- One entry of `parameters`: a dict `{name, type, description, defaultValue?}`;
`defaultValue` is `none` when the key is absent or its value is Python `None`. -/
structure Param where
  name : String
  type : String
  description : String
  defaultValue : Option String
deriving Repr, DecidableEq

/-- One entry of a `logicFlow` step list: a dict `{title, description}`. -/
structure Step where
  title : String
  description : String
deriving Repr, DecidableEq

/-- The `logicFlow` argument: the source branches on `isinstance(logicFlow, list)`,
so the field is a tagged union of a step list and a bare string. -/
inductive LogicFlow where
  | steps (l : List Step)
  | narrative (text : String)
deriving Repr, DecidableEq

/-- The `dependencies` dict restricted to the two keys the source reads;
each field is `none` when that key is absent. -/
structure Deps where
  tables : Option (List String)
  procedures : Option (List String)
deriving Repr, DecidableEq

/-- One entry of `usageExamples`: a dict `{title, code, explanation?}`;
`explanation := none` models an absent key (the source tests presence only). -/
structure UsageExample where
  title : String
  code : String
  explanation : Option String
deriving Repr, DecidableEq

/-- One entry of `fullVersionHistory`. -/
structure HistoryEntry where
  version : String
  date : String
  changedBy : String
  changes : String
  refDoc : String
deriving Repr, DecidableEq

/-- The argument list of `create_sp_doc`, gathered into one record
(`objectType` is accepted by the source and never read). -/
structure DocRecord where
  spName : String
  version : String
  createdDate : String
  createdBy : String
  schema : String
  objectType : String
  purpose : String
  recentChanges : List Change
  whatsNew : String
  parameters : List Param
  logicFlow : LogicFlow
  dependencies : Option Deps
  usageExamples : List UsageExample
  performanceNotes : String
  errorHandling : String
  fullVersionHistory : List HistoryEntry
  complexityScore : Int
  isQA : Bool
deriving Repr, DecidableEq

/-- Abstract block-level render instruction (content only; styling is out of scope). -/
inductive Block where
  | docTitle (text : String)
  | metaLine (label value : String)
  | header (num : Option Nat) (text : String)
  | subheader (text : String)
  | paragraph (text : String)
  | bullet (text : String)
  | codeBlock (text : String)
  | table (rows : List (List String))
  | divider
deriving Repr, DecidableEq

/-- Lines 61-129: the header table (document title, subtitle, qualified name,
and the five metadata lines, in source order). -/
def headerBlocks (r : DocRecord) : List Block :=
  [ Block.docTitle (if r.isQA then "QA STORED PROCEDURE" else "STORED PROCEDURE"),
    Block.paragraph "Technical Documentation",
    Block.paragraph (r.schema ++ "." ++ r.spName),
    Block.metaLine "Version:" ("v" ++ r.version),
    Block.metaLine "Type:" (if r.isQA then "QA Procedure" else "Production"),
    Block.metaLine "Created:" r.createdDate,
    Block.metaLine "Created By:" r.createdBy,
    Block.metaLine "Complexity:" (toString r.complexityScore ++ "/100") ]

/-- Line 147: `f"{change['date']} - {change['summary']} ({change['refDoc']})"`. -/
def recentChangeBullet (c : Change) : Block :=
  Block.bullet (c.date ++ " - " ++ c.summary ++ " (" ++ c.refDoc ++ ")")

/-- Lines 142-155: body of the recent-changes section
(`recentChanges[:5]` bullets, or the placeholder paragraph). -/
def recentBody (cs : List Change) : List Block :=
  if cs ≠ [] then (cs.take 5).map recentChangeBullet
  else [Block.paragraph "No changes recorded yet."]

/-- Lines 133-155: the "5 MOST RECENT CHANGES" header (literal text, no running
number) followed by the body. -/
def recentChangesBlocks (cs : List Change) : List Block :=
  Block.header none "5 MOST RECENT CHANGES" :: recentBody cs

/-- Lines 159-174: the hardcoded "1. PURPOSE" header and the purpose paragraph,
with the QA intro prepended when `isQA`. -/
def purposeBlocks (r : DocRecord) : List Block :=
  [ Block.header (some 1) "PURPOSE",
    Block.paragraph
      (if r.isQA then
        "This is a QA validation procedure designed to verify data quality and integrity. "
          ++ r.purpose
       else r.purpose) ]

/-- Lines 179-193: the whats-new section (header hardcoded "2.", subheader,
paragraph, trailing divider), emitted only under `if whatsNew:`. -/
def whatsNewBlocks (r : DocRecord) : List Block :=
  [ Block.header (some 2) ("WHAT\x27S NEW IN VERSION " ++ r.version),
    Block.subheader "Changes in This Version:",
    Block.paragraph r.whatsNew,
    Block.divider ]

/-- Lines 208-219: blocks for one parameter; the default-value line needs the
key present with a truthy value (`'defaultValue' in param and param['defaultValue']`). -/
def paramBlocks (p : Param) : List Block :=
  Block.subheader (p.name ++ " (" ++ p.type ++ "):") ::
  Block.paragraph p.description ::
  (match p.defaultValue with
   | some v => if v ≠ "" then [Block.paragraph ("Default: " ++ v)] else []
   | none => [])

/-- Lines 198-222: the parameters section (header with running number; body is
the per-parameter blocks, or the placeholder under `else`). -/
def parametersBlocks (n : Nat) (ps : List Param) : List Block :=
  Block.header (some n) "PARAMETERS" ::
    (if ps ≠ [] then ps.flatMap paramBlocks else [Block.paragraph "No parameters"])

/-- Lines 237-242: `for i, step in enumerate(logicFlow, 1)` — one subheader
`Step i: title` plus one description paragraph per step. -/
def stepBlocks : Nat → List Step → List Block
  | _, [] => []
  | i, s :: rest =>
      Block.subheader ("Step " ++ toString i ++ ": " ++ s.title) ::
      Block.paragraph s.description ::
      stepBlocks (i + 1) rest

/-- Lines 236-245: the dual-shape body of the logic-flow section. -/
def logicFlowBody : LogicFlow → List Block
  | LogicFlow.steps l => stepBlocks 1 l
  | LogicFlow.narrative t => [Block.paragraph t]

/-- Lines 228-245: the logic-flow section (header with running number + body). -/
def logicFlowBlocks (n : Nat) (lf : LogicFlow) : List Block :=
  Block.header (some n) "LOGIC FLOW" :: logicFlowBody lf

/-- Python `bool(dependencies)` for the dict restricted to its two keys:
truthy iff the dict is present and non-empty (has at least one key). -/
def depsTruthy : Option Deps → Bool
  | none => false
  | some d => d.tables.isSome || d.procedures.isSome

/-- Lines 263 / 270: `doc.add_paragraph(f"• {x}", style='List Bullet')`. -/
def depListBullets (xs : List String) : List Block :=
  xs.map fun x => Block.bullet ("• " ++ x)

/-- Lines 260-272: the two optional sub-blocks of the dependencies section;
each needs its key present with a non-empty list
(`'tables' in dependencies and dependencies['tables']`). -/
def depsBodyOf : Option Deps → List Block
  | none => []
  | some d =>
      (match d.tables with
       | some ts =>
          if ts ≠ [] then Block.subheader "Tables Accessed:" :: depListBullets ts else []
       | none => []) ++
      (match d.procedures with
       | some prs =>
          if prs ≠ [] then
            Block.subheader "Stored Procedures Called:" :: depListBullets prs
          else []
       | none => [])

/-- Lines 251-275: the dependencies section as emitted when its gate holds
(header with running number, body, trailing divider). -/
def depsChunk (n : Nat) (o : Option Deps) : List Block :=
  Block.header (some n) "DEPENDENCIES" :: (depsBodyOf o ++ [Block.divider])

/-- Lines 287-294: `for i, example in enumerate(usageExamples, 1)`; the
explanation paragraph needs only key presence (`'explanation' in example`). -/
def exampleBlocks : Nat → List UsageExample → List Block
  | _, [] => []
  | i, e :: rest =>
      Block.subheader ("Example " ++ toString i ++ ": " ++ e.title) ::
      Block.codeBlock e.code ::
      ((match e.explanation with
        | some t => [Block.paragraph t]
        | none => []) ++ exampleBlocks (i + 1) rest)

/-- Lines 278-294: the usage-examples section (header always; body only under
`if usageExamples:`). -/
def usageBlocks (n : Nat) (es : List UsageExample) : List Block :=
  Block.header (some n) "USAGE EXAMPLES" ::
    (if es ≠ [] then exampleBlocks 1 es else [])

/-- Lines 300-313: the performance-notes section as emitted when its gate holds. -/
def perfBlocks (n : Nat) (notes : String) : List Block :=
  [Block.header (some n) "PERFORMANCE NOTES", Block.paragraph notes, Block.divider]

/-- Lines 316-329: the error-handling section as emitted when its gate holds. -/
def errBlocks (n : Nat) (txt : String) : List Block :=
  [Block.header (some n) "ERROR HANDLING", Block.paragraph txt, Block.divider]

/-- Line 358: the four cells of one version-history row; the Changes cell is
`f"{changes} (Ref: {refDoc})" if entry['refDoc'] else entry['changes']`. -/
def historyRow (e : HistoryEntry) : List String :=
  [ "v" ++ e.version, e.date, e.changedBy,
    if e.refDoc ≠ "" then e.changes ++ " (Ref: " ++ e.refDoc ++ ")" else e.changes ]

/-- Lines 331-363: the version-history section: header with running number;
the table (fixed header row plus one row per entry) exists only under
`if fullVersionHistory:`. -/
def historyBlocks (n : Nat) (h : List HistoryEntry) : List Block :=
  Block.header (some n) "FULL VERSION HISTORY" ::
    (if h ≠ [] then
      [Block.table (["Version", "Date", "Changed By", "Changes"] :: h.map historyRow)]
     else [])

/-- Line 179 `if whatsNew:` — gate of the whats-new section. -/
def wnOn (r : DocRecord) : Bool := r.whatsNew != ""

/-- Line 251 `if complexityScore > 30 and dependencies:` — gate of the
dependencies section (dict truthiness, not sub-list emptiness). -/
def depsOn (r : DocRecord) : Bool :=
  decide (30 < r.complexityScore) && depsTruthy r.dependencies

/-- Line 300 `if complexityScore > 50 and performanceNotes:`. -/
def perfOn (r : DocRecord) : Bool :=
  decide (50 < r.complexityScore) && (r.performanceNotes != "")

/-- Line 316 `if complexityScore > 40 and errorHandling:`. -/
def errOn (r : DocRecord) : Bool :=
  decide (40 < r.complexityScore) && (r.errorHandling != "")

/-- Value of the mutable `section_num` at the parameters header
(lines 194-196: `section_num = 3` after whats-new, else `section_num = 2`). -/
def nParams (r : DocRecord) : Nat := if wnOn r then 3 else 2

/-- `section_num` at the logic-flow header (line 225 `section_num += 1`). -/
def nLogic (r : DocRecord) : Nat := nParams r + 1

/-- `section_num` at the dependencies header (line 248 `section_num += 1`). -/
def nDeps (r : DocRecord) : Nat := nLogic r + 1

/-- `section_num` at the usage-examples header (line 275 increments only when
the dependencies section was emitted). -/
def nUsage (r : DocRecord) : Nat := nDeps r + (if depsOn r then 1 else 0)

/-- `section_num` at the performance-notes header (line 297 `section_num += 1`). -/
def nPerf (r : DocRecord) : Nat := nUsage r + 1

/-- `section_num` at the error-handling header (line 313 increments only when
the performance section was emitted). -/
def nErr (r : DocRecord) : Nat := nPerf r + (if perfOn r then 1 else 0)

/-- `section_num` at the version-history header (line 329 increments only when
the error-handling section was emitted). -/
def nHist (r : DocRecord) : Nat := nErr r + (if errOn r then 1 else 0)

/-- Lines 49-364: the whole of `create_sp_doc` — the ordered sequence of
emitted blocks (each `add_divider(doc)` call is a `[Block.divider]`). -/
def create_sp_doc (r : DocRecord) : List Block :=
  headerBlocks r ++ [Block.divider] ++
  recentChangesBlocks r.recentChanges ++ [Block.divider] ++
  purposeBlocks r ++ [Block.divider] ++
  (if wnOn r then whatsNewBlocks r else []) ++
  parametersBlocks (nParams r) r.parameters ++ [Block.divider] ++
  logicFlowBlocks (nLogic r) r.logicFlow ++ [Block.divider] ++
  (if depsOn r then depsChunk (nDeps r) r.dependencies else []) ++
  usageBlocks (nUsage r) r.usageExamples ++ [Block.divider] ++
  (if perfOn r then perfBlocks (nPerf r) r.performanceNotes else []) ++
  (if errOn r then errBlocks (nErr r) r.errorHandling else []) ++
  historyBlocks (nHist r) r.fullVersionHistory

/-! ## Observation functions over the emitted block sequence -/

/-- Select the section-header component of a block, when it is one. -/
def headerSel : Block → Option (Option Nat × String)
  | Block.header n t => some (n, t)
  | _ => none

/-- The section headers of an emitted block sequence, in order. -/
def headersOf (bs : List Block) : List (Option Nat × String) :=
  bs.filterMap headerSel

/-- The texts of the emitted section headers, in order. -/
def headerTexts (bs : List Block) : List String :=
  (headersOf bs).map Prod.snd

/-- The running numbers of the emitted numbered section headers, in order. -/
def sectionNumbers (bs : List Block) : List Nat :=
  (headersOf bs).filterMap Prod.fst

/-- Select the text of a bullet block, when it is one. -/
def bulletText : Block → Option String
  | Block.bullet t => some t
  | _ => none

/-- Whether a block is a rendered table. -/
def isTable : Block → Bool
  | Block.table _ => true
  | _ => false

/-- Number of satisfied conditional section gates of a record:
whats-new, dependencies, performance notes, error handling. -/
def numGates (r : DocRecord) : Nat :=
  (if wnOn r then 1 else 0) + (if depsOn r then 1 else 0) +
  (if perfOn r then 1 else 0) + (if errOn r then 1 else 0)

/-! ## Headers emitted by each component -/

@[simp]
theorem headersOf_nil : headersOf [] = [] := rfl

@[simp]
theorem headersOf_append (xs ys : List Block) :
    headersOf (xs ++ ys) = headersOf xs ++ headersOf ys :=
  List.filterMap_append xs ys headerSel

@[simp]
theorem headersOf_cons_header (n : Option Nat) (t : String) (bs : List Block) :
    headersOf (Block.header n t :: bs) = (n, t) :: headersOf bs := rfl

@[simp]
theorem headersOf_cons_docTitle (t : String) (bs : List Block) :
    headersOf (Block.docTitle t :: bs) = headersOf bs := rfl

@[simp]
theorem headersOf_cons_metaLine (l v : String) (bs : List Block) :
    headersOf (Block.metaLine l v :: bs) = headersOf bs := rfl

@[simp]
theorem headersOf_cons_subheader (t : String) (bs : List Block) :
    headersOf (Block.subheader t :: bs) = headersOf bs := rfl

@[simp]
theorem headersOf_cons_paragraph (t : String) (bs : List Block) :
    headersOf (Block.paragraph t :: bs) = headersOf bs := rfl

@[simp]
theorem headersOf_cons_bullet (t : String) (bs : List Block) :
    headersOf (Block.bullet t :: bs) = headersOf bs := rfl

@[simp]
theorem headersOf_cons_codeBlock (t : String) (bs : List Block) :
    headersOf (Block.codeBlock t :: bs) = headersOf bs := rfl

@[simp]
theorem headersOf_cons_table (rows : List (List String)) (bs : List Block) :
    headersOf (Block.table rows :: bs) = headersOf bs := rfl

@[simp]
theorem headersOf_cons_divider (bs : List Block) :
    headersOf (Block.divider :: bs) = headersOf bs := rfl

@[simp]
theorem headersOf_headerBlocks (r : DocRecord) :
    headersOf (headerBlocks r) = [] := rfl

@[simp]
theorem headersOf_map_recentChangeBullet (cs : List Change) :
    headersOf (cs.map recentChangeBullet) = [] := by
  induction cs with
  | nil => rfl
  | cons c rest ih => simp [recentChangeBullet, ih]

@[simp]
theorem headersOf_recentBody (cs : List Change) :
    headersOf (recentBody cs) = [] := by
  unfold recentBody headersOf
  split
  · refine List.filterMap_eq_nil_iff.mpr ?_
    intro b hb
    rcases List.mem_map.mp hb with ⟨c, _, hc⟩
    subst hc
    rfl
  · rfl

@[simp]
theorem headersOf_recentChangesBlocks (cs : List Change) :
    headersOf (recentChangesBlocks cs) = [(none, "5 MOST RECENT CHANGES")] := by
  simp [recentChangesBlocks]

@[simp]
theorem headersOf_purposeBlocks (r : DocRecord) :
    headersOf (purposeBlocks r) = [(some 1, "PURPOSE")] := rfl

@[simp]
theorem headersOf_whatsNewBlocks (r : DocRecord) :
    headersOf (whatsNewBlocks r) =
      [(some 2, "WHAT\x27S NEW IN VERSION " ++ r.version)] := rfl

@[simp]
theorem headersOf_paramBlocks (p : Param) :
    headersOf (paramBlocks p) = [] := by
  unfold paramBlocks
  rcases p.defaultValue with _ | v
  · rfl
  · by_cases h : v ≠ "" <;> simp [h]

@[simp]
theorem headersOf_flatMap_paramBlocks (ps : List Param) :
    headersOf (ps.flatMap paramBlocks) = [] := by
  induction ps with
  | nil => rfl
  | cons p rest ih => simp [List.flatMap_cons, ih]

@[simp]
theorem headersOf_parametersBlocks (n : Nat) (ps : List Param) :
    headersOf (parametersBlocks n ps) = [(some n, "PARAMETERS")] := by
  unfold parametersBlocks
  split <;> simp

@[simp]
theorem headersOf_stepBlocks (i : Nat) (l : List Step) :
    headersOf (stepBlocks i l) = [] := by
  induction l generalizing i with
  | nil => rfl
  | cons s rest ih => simp [stepBlocks, ih]

@[simp]
theorem headersOf_logicFlowBody (lf : LogicFlow) :
    headersOf (logicFlowBody lf) = [] := by
  cases lf <;> simp [logicFlowBody]

@[simp]
theorem headersOf_logicFlowBlocks (n : Nat) (lf : LogicFlow) :
    headersOf (logicFlowBlocks n lf) = [(some n, "LOGIC FLOW")] := by
  simp [logicFlowBlocks]

@[simp]
theorem headersOf_depListBullets (xs : List String) :
    headersOf (depListBullets xs) = [] := by
  induction xs with
  | nil => rfl
  | cons x rest ih => simp [depListBullets] at ih ⊢; exact ih

@[simp]
theorem headersOf_depsBodyOf (o : Option Deps) :
    headersOf (depsBodyOf o) = [] := by
  unfold depsBodyOf
  rcases o with _ | d
  · rfl
  · obtain ⟨tso, pro⟩ := d
    have h1 : ∀ (lbl : String) (xs : List String),
        headersOf (if xs = [] then [] else Block.subheader lbl :: depListBullets xs) = [] := by
      intro lbl xs
      split <;> simp
    rcases tso with _ | ts <;> rcases pro with _ | prs <;> simp [h1]

@[simp]
theorem headersOf_depsChunk (n : Nat) (o : Option Deps) :
    headersOf (depsChunk n o) = [(some n, "DEPENDENCIES")] := by
  simp [depsChunk]

@[simp]
theorem headersOf_exampleBlocks (i : Nat) (es : List UsageExample) :
    headersOf (exampleBlocks i es) = [] := by
  induction es generalizing i with
  | nil => rfl
  | cons e rest ih =>
      rcases he : e.explanation with _ | t <;>
        simp [exampleBlocks, he, ih]

@[simp]
theorem headersOf_usageBlocks (n : Nat) (es : List UsageExample) :
    headersOf (usageBlocks n es) = [(some n, "USAGE EXAMPLES")] := by
  unfold usageBlocks
  split <;> simp

@[simp]
theorem headersOf_perfBlocks (n : Nat) (notes : String) :
    headersOf (perfBlocks n notes) = [(some n, "PERFORMANCE NOTES")] := rfl

@[simp]
theorem headersOf_errBlocks (n : Nat) (txt : String) :
    headersOf (errBlocks n txt) = [(some n, "ERROR HANDLING")] := rfl

@[simp]
theorem headersOf_historyBlocks (n : Nat) (h : List HistoryEntry) :
    headersOf (historyBlocks n h) = [(some n, "FULL VERSION HISTORY")] := by
  unfold historyBlocks
  split <;> rfl

/-! ## The master header decomposition of `create_sp_doc` -/

/-- The full, ordered list of section headers emitted by `create_sp_doc`,
with their running numbers. -/
theorem headersOf_create (r : DocRecord) :
    headersOf (create_sp_doc r) =
      (none, "5 MOST RECENT CHANGES") :: (some 1, "PURPOSE") ::
      ((if wnOn r then [(some 2, "WHAT\x27S NEW IN VERSION " ++ r.version)] else []) ++
       (some (nParams r), "PARAMETERS") :: (some (nLogic r), "LOGIC FLOW") ::
       ((if depsOn r then [(some (nDeps r), "DEPENDENCIES")] else []) ++
        (some (nUsage r), "USAGE EXAMPLES") ::
        ((if perfOn r then [(some (nPerf r), "PERFORMANCE NOTES")] else []) ++
         (if errOn r then [(some (nErr r), "ERROR HANDLING")] else []) ++
         [(some (nHist r), "FULL VERSION HISTORY")]))) := by
  unfold create_sp_doc
  by_cases hw : wnOn r = true <;> by_cases hd : depsOn r = true <;>
    by_cases hp : perfOn r = true <;> by_cases he : errOn r = true <;>
    simp [hw, hd, hp, he]

/-! ## Characterizations of the four section gates -/

theorem wnOn_iff (r : DocRecord) : wnOn r = true ↔ r.whatsNew ≠ "" :=
  bne_iff_ne

theorem depsTruthy_iff (o : Option Deps) :
    depsTruthy o = true ↔
      ∃ d, o = some d ∧ (d.tables ≠ none ∨ d.procedures ≠ none) := by
  rcases o with _ | d
  · simp [depsTruthy]
  · simp [depsTruthy, Option.isSome_iff_ne_none]

theorem depsOn_iff (r : DocRecord) :
    depsOn r = true ↔
      (30 < r.complexityScore ∧
        ∃ d, r.dependencies = some d ∧ (d.tables ≠ none ∨ d.procedures ≠ none)) := by
  rw [depsOn, Bool.and_eq_true, decide_eq_true_iff, depsTruthy_iff]

theorem perfOn_iff (r : DocRecord) :
    perfOn r = true ↔ (50 < r.complexityScore ∧ r.performanceNotes ≠ "") := by
  rw [perfOn, Bool.and_eq_true, decide_eq_true_iff, bne_iff_ne]

theorem errOn_iff (r : DocRecord) :
    errOn r = true ↔ (40 < r.complexityScore ∧ r.errorHandling ≠ "") := by
  rw [errOn, Bool.and_eq_true, decide_eq_true_iff, bne_iff_ne]

/-! ## The whats-new header text never collides with the fixed header texts -/

theorem wnTitle_ne (v t : String) (h : t.length ≠ 22 + v.length) :
    ("WHAT\x27S NEW IN VERSION " ++ v) ≠ t := by
  intro he
  apply h
  rw [← he, String.length_append]
  have h22 : ("WHAT\x27S NEW IN VERSION ").length = 22 := rfl
  rw [h22]

theorem deps_ne_wnTitle (v : String) :
    "DEPENDENCIES" ≠ ("WHAT\x27S NEW IN VERSION " ++ v) := by
  intro he
  refine wnTitle_ne v "DEPENDENCIES" ?_ he.symm
  have h12 : ("DEPENDENCIES" : String).length = 12 := rfl
  rw [h12]
  omega

theorem perf_ne_wnTitle (v : String) :
    "PERFORMANCE NOTES" ≠ ("WHAT\x27S NEW IN VERSION " ++ v) := by
  intro he
  refine wnTitle_ne v "PERFORMANCE NOTES" ?_ he.symm
  have h17 : ("PERFORMANCE NOTES" : String).length = 17 := rfl
  rw [h17]
  omega

theorem err_ne_wnTitle (v : String) :
    "ERROR HANDLING" ≠ ("WHAT\x27S NEW IN VERSION " ++ v) := by
  intro he
  refine wnTitle_ne v "ERROR HANDLING" ?_ he.symm
  have h14 : ("ERROR HANDLING" : String).length = 14 := rfl
  rw [h14]
  omega

/-! ## Further helper lemmas about section bodies -/

/-- Number of subheading blocks in a sequence. -/
def countSubheaders (bs : List Block) : Nat :=
  (bs.filterMap fun b => match b with
    | Block.subheader t => some t
    | _ => none).length

/-- Number of paragraph blocks in a sequence. -/
def countParagraphs (bs : List Block) : Nat :=
  (bs.filterMap fun b => match b with
    | Block.paragraph t => some t
    | _ => none).length

theorem stepBlocks_eq_enumFrom (k : Nat) (l : List Step) :
    stepBlocks k l =
      (l.enumFrom k).flatMap (fun p =>
        [Block.subheader ("Step " ++ toString p.1 ++ ": " ++ p.2.title),
         Block.paragraph p.2.description]) := by
  induction l generalizing k with
  | nil => rfl
  | cons s rest ih =>
      simp [stepBlocks, List.enumFrom_cons, List.flatMap_cons, ih]

theorem countSubheaders_stepBlocks (k : Nat) (l : List Step) :
    countSubheaders (stepBlocks k l) = l.length := by
  induction l generalizing k with
  | nil => rfl
  | cons s rest ih =>
      simp [stepBlocks, countSubheaders, List.filterMap_cons] at ih ⊢
      exact ih (k + 1)

theorem countParagraphs_stepBlocks (k : Nat) (l : List Step) :
    countParagraphs (stepBlocks k l) = l.length := by
  induction l generalizing k with
  | nil => rfl
  | cons s rest ih =>
      simp [stepBlocks, countParagraphs, List.filterMap_cons] at ih ⊢
      exact ih (k + 1)

theorem bullets_of_map_recentChangeBullet (cs : List Change) :
    (cs.map recentChangeBullet).filterMap bulletText =
      cs.map (fun c => c.date ++ " - " ++ c.summary ++ " (" ++ c.refDoc ++ ")") := by
  induction cs with
  | nil => rfl
  | cons c rest ih =>
      simp [recentChangeBullet, bulletText, List.filterMap_cons, ih]

/-- Any block of the version-history section is a block of the whole document. -/
theorem mem_create_sp_doc_of_mem_history (r : DocRecord) (b : Block)
    (hb : b ∈ historyBlocks (nHist r) r.fullVersionHistory) :
    b ∈ create_sp_doc r := by
  unfold create_sp_doc
  simp only [List.append_assoc, List.mem_append]
  tauto

/-! ## Concrete records for the counterexamples -/

/-- A minimal well-formed record: no optional content, no gate satisfied. -/
def baseRec : DocRecord where
  spName := "usp_X"
  version := "1.0"
  createdDate := "2024-01-01"
  createdBy := "A"
  schema := "dbo"
  objectType := "Stored Procedure"
  purpose := "Does things."
  recentChanges := []
  whatsNew := ""
  parameters := []
  logicFlow := LogicFlow.narrative "One pass."
  dependencies := none
  usageExamples := []
  performanceNotes := ""
  errorHandling := ""
  fullVersionHistory := []
  complexityScore := 10
  isQA := false

/-- Score 31 with a dependencies mapping present whose two sub-lists are both empty. -/
def C1rec : DocRecord :=
  { baseRec with
    complexityScore := 31
    dependencies := some { tables := some [], procedures := some [] } }

/-- Score 150, outside the claimed valid range [0,100]. -/
def C2rec : DocRecord :=
  { baseRec with complexityScore := 150 }

/-- A record satisfying all four conditional section gates. -/
def C3rec : DocRecord :=
  { baseRec with
    whatsNew := "New validation."
    complexityScore := 60
    dependencies := some { tables := some ["dbo.T1"], procedures := none }
    performanceNotes := "Fast."
    errorHandling := "Logged." }

/-- `baseRec` with only the mode flag flipped to QA. -/
def C9qa : DocRecord :=
  { baseRec with isQA := true }

/-- Everything the assembler emits after the Purpose section's divider.
This definition never reads `isQA`: the whole tail of the document is
mode-independent. -/
def afterPurpose (r : DocRecord) : List Block :=
  (if wnOn r then whatsNewBlocks r else []) ++
  parametersBlocks (nParams r) r.parameters ++ [Block.divider] ++
  logicFlowBlocks (nLogic r) r.logicFlow ++ [Block.divider] ++
  (if depsOn r then depsChunk (nDeps r) r.dependencies else []) ++
  usageBlocks (nUsage r) r.usageExamples ++ [Block.divider] ++
  (if perfOn r then perfBlocks (nPerf r) r.performanceNotes else []) ++
  (if errOn r then errBlocks (nErr r) r.errorHandling else []) ++
  historyBlocks (nHist r) r.fullVersionHistory

theorem empty_string_append (s : String) : "" ++ s = s := rfl

/-- The source styles several paragraphs through an unguarded `p.runs[0]`
access right after `doc.add_paragraph(text)`; python-docx adds a run only
when `text` is non-empty, so each such site raises `IndexError` when its
text is empty.  This predicate holds iff some styled paragraph of the
document has empty text, site by site:
* line 174 — the purpose paragraph; its text is empty iff the mode is
  standard and `purpose` is empty (the QA intro makes it non-empty);
* line 213 — a parameter's description paragraph;
* lines 242 / 245 — a step's description paragraph, or the bare-string
  `logicFlow` paragraph;
* line 294 — an explanation paragraph emitted for a present-but-empty
  `explanation` key.
Every other `runs[0]` access styles literal non-empty text or text guarded
by a truthiness gate (lines 153, 191, 218, 222, 265, 272, 310, 326), and
`add_subheader` / `add_code_block` / the bullets at line 147 style the run
returned by `add_run`, which exists even for empty text. -/
def emptyParagraphStyled (r : DocRecord) : Bool :=
  (!r.isQA && (r.purpose == "")) ||
  (r.parameters.any fun p => p.description == "") ||
  (match r.logicFlow with
   | LogicFlow.steps l => l.any fun s => s.description == ""
   | LogicFlow.narrative t => t == "") ||
  (r.usageExamples.any fun e => e.explanation == some "")

/-- `create_sp_doc` including its real failure mode: when some styled
paragraph has empty text the source raises `IndexError` at the first such
site and the caller receives no document; otherwise assembly completes and
returns the full block sequence.  No path raises a `ValidationError` — the
source contains no validation and no raise statement. -/
def create_sp_doc_checked (r : DocRecord) : Except String (List Block) :=
  if emptyParagraphStyled r then Except.error "IndexError"
  else Except.ok (create_sp_doc r)

/-- `baseRec` with its required `purpose` field empty: in standard mode the
purpose paragraph then has empty text and line 174 raises `IndexError`. -/
def C2crash : DocRecord :=
  { baseRec with purpose := "" }

/-! ## Claim C1 -/

/-- Claim C1 counterexample: with `complexityScore = 31` and a dependencies
mapping present whose `tables` and `procedures` sub-lists are both empty, the
code still emits the "DEPENDENCIES" section header — the gate at source line
251 tests dict truthiness, not sub-list non-emptiness — contradicting the
claim that no Dependencies header is emitted for such a record. -/
theorem C1_counterexample :
    (30 : Int) < C1rec.complexityScore ∧
    C1rec.dependencies = some { tables := some [], procedures := some [] } ∧
    "DEPENDENCIES" ∈ headerTexts (create_sp_doc C1rec) := by
  refine ⟨by decide, rfl, ?_⟩
  decide

/-- Claim C1 (amended): the Dependencies section header is emitted iff
`complexityScore > 30` and the dependencies mapping is present with at least
one of its two keys present (Python dict truthiness) — even when both
sub-lists are empty.  (Each sub-block inside the section still requires its
key to be present with a non-empty list.) -/
theorem C1_amended (r : DocRecord) :
    "DEPENDENCIES" ∈ headerTexts (create_sp_doc r) ↔
      (30 < r.complexityScore ∧
        ∃ d, r.dependencies = some d ∧ (d.tables ≠ none ∨ d.procedures ≠ none)) := by
  rw [← depsOn_iff]
  simp only [headerTexts, headersOf_create]
  by_cases hw : wnOn r = true <;> by_cases hd : depsOn r = true <;>
    by_cases hp : perfOn r = true <;> by_cases he : errOn r = true <;>
    simp [hw, hd, hp, he, deps_ne_wnTitle]

/-! ## Claim C2 -/

/-- Claim C2 counterexample: `complexityScore = 150` lies outside [0,100], yet
assembly does not raise any `ValidationError` and does not abort: the source
contains no validation or raise statement at all, so the document is produced
in full, with the out-of-range score rendered verbatim in the Complexity
metadata line. -/
theorem C2_counterexample :
    (100 : Int) < C2rec.complexityScore ∧
    create_sp_doc C2rec ≠ [] ∧
    Block.metaLine "Complexity:" "150/100" ∈ create_sp_doc C2rec := by
  refine ⟨by decide, by decide, by decide⟩

/-- Claim C2 (amended): assembly never raises a `ValidationError` for any
record — the source performs no validation — and its only failure mode is an
unnamed `IndexError` from an unguarded styling access on an empty-text
paragraph, a condition independent of `complexityScore`: a score outside
[0,100] is accepted, and whenever no styled paragraph is empty the document
is assembled in full, with the score rendered verbatim in the Complexity
metadata line and the final Full Version History header present; records
missing only optional fields stay on this crash-free path and degrade to
placeholder text or section omission. -/
theorem C2_amended (r : DocRecord) (c : Int) :
    (create_sp_doc_checked r = Except.error "IndexError" ∨
      create_sp_doc_checked r = Except.ok (create_sp_doc r)) ∧
    emptyParagraphStyled { r with complexityScore := c } =
      emptyParagraphStyled r ∧
    (emptyParagraphStyled r = false →
      create_sp_doc_checked r = Except.ok (create_sp_doc r) ∧
      Block.metaLine "Complexity:" (toString r.complexityScore ++ "/100") ∈
        create_sp_doc r ∧
      (some (nHist r), "FULL VERSION HISTORY") ∈ headersOf (create_sp_doc r)) ∧
    (emptyParagraphStyled r = true →
      create_sp_doc_checked r = Except.error "IndexError") := by
  refine ⟨?_, rfl, ?_, ?_⟩
  · unfold create_sp_doc_checked
    by_cases h : emptyParagraphStyled r = true
    · exact Or.inl (by simp [h])
    · exact Or.inr (by simp [h])
  · intro h
    refine ⟨by simp [create_sp_doc_checked, h], ?_, ?_⟩
    · simp [create_sp_doc, headerBlocks]
    · rw [headersOf_create]
      simp
  · intro h
    simp [create_sp_doc_checked, h]

/-- Closed witness for the amended C2, exercising both branches: at the
out-of-range record `C2rec` (score 150) the crash condition is false, so
assembly completes in full with the score rendered verbatim; at `C2crash`
(empty purpose, standard mode) the crash condition holds, so the checked
assembly yields the `IndexError` — and in neither case a `ValidationError`. -/
theorem C2_amended_witness :
    emptyParagraphStyled C2rec = false ∧
    create_sp_doc_checked C2rec = Except.ok (create_sp_doc C2rec) ∧
    Block.metaLine "Complexity:" (toString C2rec.complexityScore ++ "/100") ∈
      create_sp_doc C2rec ∧
    emptyParagraphStyled C2crash = true ∧
    create_sp_doc_checked C2crash = Except.error "IndexError" := by
  have h1 := (C2_amended C2rec 0).2.2.1 (by decide)
  have h2 := (C2_amended C2crash 0).2.2.2 (by decide)
  exact ⟨by decide, h1.1, h1.2.1, by decide, h2⟩

/-! ## Claim C3 -/

/-- Claim C3 counterexample: with all four conditional gates satisfied the
emitted section numbers are the contiguous 1..9, not 1..(7+4) = 1..11 as the
claim computes: only five of the unconditionally-emitted sections carry
running numbers (the Title block and the "5 MOST RECENT CHANGES" header are
unnumbered, and the Purpose header is hardcoded to 1). -/
theorem C3_counterexample :
    numGates C3rec = 4 ∧
    sectionNumbers (create_sp_doc C3rec) = [1, 2, 3, 4, 5, 6, 7, 8, 9] ∧
    sectionNumbers (create_sp_doc C3rec) ≠ List.range' 1 (7 + numGates C3rec) := by
  refine ⟨by decide, by decide, by decide⟩

/-- Claim C3 (amended): for every record the emitted section numbers form the
contiguous sequence 1..K with no gaps or repeats, where K = 5 (the
unconditionally numbered sections: Purpose, Parameters, Logic Flow, Usage
Examples, Full Version History) plus the number of satisfied conditional
gates (What's New, Dependencies, Performance Notes, Error Handling); the
Title block and the Recent Changes header carry no section number. -/
theorem C3_amended (r : DocRecord) :
    sectionNumbers (create_sp_doc r) = List.range' 1 (5 + numGates r) := by
  simp only [sectionNumbers, headersOf_create]
  by_cases hw : wnOn r = true <;> by_cases hd : depsOn r = true <;>
    by_cases hp : perfOn r = true <;> by_cases he : errOn r = true <;>
    simp [hw, hd, hp, he, numGates, nParams, nLogic, nDeps, nUsage, nPerf, nErr,
      nHist, List.filterMap_cons] <;>
    decide

/-! ## Claim C4 -/

/-- Claim C4 counterexample: with an empty `fullVersionHistory` no table block
is rendered anywhere in the document — the Full Version History section is the
numbered header alone, so no empty table skeleton (header row, zero data rows)
exists, contradicting the claim. -/
theorem C4_counterexample :
    baseRec.fullVersionHistory = [] ∧
    (create_sp_doc baseRec).getLast? =
      some (Block.header (some 5) "FULL VERSION HISTORY") ∧
    (create_sp_doc baseRec).all (fun b => !isTable b) = true := by
  refine ⟨rfl, by decide, by decide⟩

/-- Claim C4 (amended): the Full Version History section is always emitted
last with its numbered header; when the history is non-empty its table is the
fixed header row {Version, Date, Changed By, Changes} followed by one row per
entry in the given order; when the history is empty no table is rendered at
all (the header stands alone — no empty skeleton). -/
theorem C4_amended (r : DocRecord) :
    ∃ pre, create_sp_doc r =
      pre ++ Block.header (some (nHist r)) "FULL VERSION HISTORY" ::
        (if r.fullVersionHistory ≠ [] then
          [Block.table (["Version", "Date", "Changed By", "Changes"] ::
            r.fullVersionHistory.map historyRow)]
         else []) := by
  refine ⟨headerBlocks r ++ [Block.divider] ++
    recentChangesBlocks r.recentChanges ++ [Block.divider] ++
    purposeBlocks r ++ [Block.divider] ++
    (if wnOn r then whatsNewBlocks r else []) ++
    parametersBlocks (nParams r) r.parameters ++ [Block.divider] ++
    logicFlowBlocks (nLogic r) r.logicFlow ++ [Block.divider] ++
    (if depsOn r then depsChunk (nDeps r) r.dependencies else []) ++
    usageBlocks (nUsage r) r.usageExamples ++ [Block.divider] ++
    (if perfOn r then perfBlocks (nPerf r) r.performanceNotes else []) ++
    (if errOn r then errBlocks (nErr r) r.errorHandling else []), ?_⟩
  simp [create_sp_doc, historyBlocks]

/-! ## Claim C5 -/

/-- Claim C5 (confirmed): `logicFlow` is a tagged union.  When it is a list of
n steps the Logic Flow section body is exactly the n subheading+paragraph
pairs, the i-th subheading labeled "Step i: title" with 1-based i independent
of the section counter; when it is a single string the body is exactly one
paragraph and zero subheadings.  The body sits under the numbered
"LOGIC FLOW" header inside the document. -/
theorem C5_logic_flow (r : DocRecord) :
    (∃ pre post, create_sp_doc r =
        pre ++ Block.header (some (nLogic r)) "LOGIC FLOW" ::
          (logicFlowBody r.logicFlow ++ Block.divider :: post)) ∧
    (match r.logicFlow with
     | LogicFlow.steps l =>
         logicFlowBody r.logicFlow =
           (l.enumFrom 1).flatMap (fun p =>
             [Block.subheader ("Step " ++ toString p.1 ++ ": " ++ p.2.title),
              Block.paragraph p.2.description]) ∧
         countSubheaders (logicFlowBody r.logicFlow) = l.length ∧
         countParagraphs (logicFlowBody r.logicFlow) = l.length
     | LogicFlow.narrative t =>
         logicFlowBody r.logicFlow = [Block.paragraph t] ∧
         countSubheaders (logicFlowBody r.logicFlow) = 0 ∧
         countParagraphs (logicFlowBody r.logicFlow) = 1) := by
  constructor
  · refine ⟨headerBlocks r ++ [Block.divider] ++
      recentChangesBlocks r.recentChanges ++ [Block.divider] ++
      purposeBlocks r ++ [Block.divider] ++
      (if wnOn r then whatsNewBlocks r else []) ++
      parametersBlocks (nParams r) r.parameters ++ [Block.divider],
      (if depsOn r then depsChunk (nDeps r) r.dependencies else []) ++
      usageBlocks (nUsage r) r.usageExamples ++ [Block.divider] ++
      (if perfOn r then perfBlocks (nPerf r) r.performanceNotes else []) ++
      (if errOn r then errBlocks (nErr r) r.errorHandling else []) ++
      historyBlocks (nHist r) r.fullVersionHistory, ?_⟩
    simp [create_sp_doc, logicFlowBlocks]
  · rcases hl : r.logicFlow with l | t
    · refine ⟨?_, ?_, ?_⟩
      · simp [logicFlowBody, stepBlocks_eq_enumFrom]
      · simp [logicFlowBody, countSubheaders_stepBlocks]
      · simp [logicFlowBody, countParagraphs_stepBlocks]
    · exact ⟨rfl, rfl, rfl⟩

/-! ## Claim C6 -/

/-- Claim C6 (confirmed): the Recent Changes section renders exactly
`min 5 (length recentChanges)` bullets — the first five entries in the given
order — each formatted `"{date} - {summary} ({refDoc})"`, with an empty
`refDoc` rendered as an empty parenthetical "()"; the section (header plus
body) sits directly after the title block's divider. -/
theorem C6_recent_changes (r : DocRecord) :
    (∃ post, create_sp_doc r =
        headerBlocks r ++ Block.divider ::
          (Block.header none "5 MOST RECENT CHANGES" :: recentBody r.recentChanges)
          ++ post) ∧
    (recentBody r.recentChanges).filterMap bulletText =
      (r.recentChanges.take 5).map
        (fun c => c.date ++ " - " ++ c.summary ++ " (" ++ c.refDoc ++ ")") ∧
    ((recentBody r.recentChanges).filterMap bulletText).length =
      min 5 r.recentChanges.length := by
  have hbody : (recentBody r.recentChanges).filterMap bulletText =
      (r.recentChanges.take 5).map
        (fun c => c.date ++ " - " ++ c.summary ++ " (" ++ c.refDoc ++ ")") := by
    unfold recentBody
    rcases hc : r.recentChanges with _ | ⟨c, rest⟩
    · rfl
    · rw [if_pos (by simp)]
      exact bullets_of_map_recentChangeBullet _
  refine ⟨?_, hbody, ?_⟩
  · refine ⟨Block.divider ::
      (purposeBlocks r ++ [Block.divider] ++
       (if wnOn r then whatsNewBlocks r else []) ++
       parametersBlocks (nParams r) r.parameters ++ [Block.divider] ++
       logicFlowBlocks (nLogic r) r.logicFlow ++ [Block.divider] ++
       (if depsOn r then depsChunk (nDeps r) r.dependencies else []) ++
       usageBlocks (nUsage r) r.usageExamples ++ [Block.divider] ++
       (if perfOn r then perfBlocks (nPerf r) r.performanceNotes else []) ++
       (if errOn r then errBlocks (nErr r) r.errorHandling else []) ++
       historyBlocks (nHist r) r.fullVersionHistory), ?_⟩
    simp [create_sp_doc, recentChangesBlocks]
  · rw [hbody]
    simp [List.length_take]

/-! ## Claim C7 -/

/-- Claim C7 (confirmed): the Performance Notes section header is emitted iff
`complexityScore > 50` and `performanceNotes` is non-empty, and the Error
Handling section header is emitted iff `complexityScore > 40` and
`errorHandling` is non-empty; the strict inequalities make 50/51 and 40/41
the exact boundaries. -/
theorem C7_gates (r : DocRecord) :
    ("PERFORMANCE NOTES" ∈ headerTexts (create_sp_doc r) ↔
      (50 < r.complexityScore ∧ r.performanceNotes ≠ "")) ∧
    ("ERROR HANDLING" ∈ headerTexts (create_sp_doc r) ↔
      (40 < r.complexityScore ∧ r.errorHandling ≠ "")) := by
  rw [← perfOn_iff, ← errOn_iff]
  simp only [headerTexts, headersOf_create]
  constructor <;>
    (by_cases hw : wnOn r = true <;> by_cases hd : depsOn r = true <;>
      by_cases hp : perfOn r = true <;> by_cases he : errOn r = true <;>
      simp [hw, hd, hp, he, perf_ne_wnTitle, err_ne_wnTitle])

/-! ## Claim C8 -/

/-- Claim C8 (confirmed): in the Full Version History table every entry's
Changes cell (column index 3) is the entry's changes text with
`" (Ref: <refDoc>)"` appended exactly when `refDoc` is non-empty; an entry
with empty `refDoc` keeps its bare changes text.  When the history is
non-empty the table with these rows is a block of the document. -/
theorem C8_history_refdoc (r : DocRecord) :
    (r.fullVersionHistory.map historyRow).map (fun row => row.getD 3 "") =
      r.fullVersionHistory.map (fun e =>
        if e.refDoc = "" then e.changes
        else e.changes ++ " (Ref: " ++ e.refDoc ++ ")") ∧
    (r.fullVersionHistory = [] ∨
      Block.table (["Version", "Date", "Changed By", "Changes"] ::
        r.fullVersionHistory.map historyRow) ∈ create_sp_doc r) := by
  constructor
  · induction r.fullVersionHistory with
    | nil => rfl
    | cons e rest ih =>
        simp only [List.map_cons, ih]
        congr 1
        by_cases h : e.refDoc = "" <;> simp [historyRow, h]
  · rcases hh : r.fullVersionHistory with _ | ⟨e, rest⟩
    · exact Or.inl rfl
    · refine Or.inr (mem_create_sp_doc_of_mem_history r _ ?_)
      rw [historyBlocks, hh]
      simp

/-! ## Claim C9 -/

/-- Claim C9 counterexample: two assemblies of the same record differing only
in the mode flag also differ in the metadata panel's "Type:" value
("Production" vs "QA Procedure") — a block that is neither the document title
nor the Purpose paragraph — so the outputs do not differ only in title text
and Purpose phrasing. -/
theorem C9_counterexample :
    (create_sp_doc baseRec)[4]? = some (Block.metaLine "Type:" "Production") ∧
    (create_sp_doc C9qa)[4]? = some (Block.metaLine "Type:" "QA Procedure") ∧
    (create_sp_doc baseRec)[4]? ≠ (create_sp_doc C9qa)[4]? := by
  refine ⟨by decide, by decide, by decide⟩

/-- Claim C9 (amended): for every record, the STANDARD and QA outputs have
identical structure — the same block kinds in the same order, the same
sections and section numbers — and identical content except at exactly three
places: the document title text, the metadata "Type:" value, and the intro
phrasing prepended to the Purpose paragraph.  (The entire tail of the
document, `afterPurpose r`, does not depend on the mode flag.) -/
theorem C9_amended (r : DocRecord) (q : Bool) :
    create_sp_doc { r with isQA := q } =
      Block.docTitle (if q then "QA STORED PROCEDURE" else "STORED PROCEDURE") ::
      Block.paragraph "Technical Documentation" ::
      Block.paragraph (r.schema ++ "." ++ r.spName) ::
      Block.metaLine "Version:" ("v" ++ r.version) ::
      Block.metaLine "Type:" (if q then "QA Procedure" else "Production") ::
      Block.metaLine "Created:" r.createdDate ::
      Block.metaLine "Created By:" r.createdBy ::
      Block.metaLine "Complexity:" (toString r.complexityScore ++ "/100") ::
      Block.divider ::
      (recentChangesBlocks r.recentChanges ++
       Block.divider ::
       Block.header (some 1) "PURPOSE" ::
       Block.paragraph
         ((if q then
            "This is a QA validation procedure designed to verify data quality and integrity. "
           else "") ++ r.purpose) ::
       Block.divider ::
       afterPurpose r) := by
  cases q <;>
    simp [create_sp_doc, afterPurpose, headerBlocks, purposeBlocks, whatsNewBlocks,
      empty_string_append, wnOn, depsOn, perfOn, errOn, nParams, nLogic, nDeps,
      nUsage, nPerf, nErr, nHist]

/-! ## Claim C10 -/

/-- Claim C10 (confirmed): a usage example's explanation paragraph is emitted
iff the `explanation` key is present — including when its value is the empty
string (a presence-only check) — whereas a parameter's default-value line
requires the `defaultValue` key to be present and truthy; in particular an
example with `explanation=""` still yields its (empty) paragraph while a
parameter with `defaultValue=""` yields no Default line. -/
theorem C10_presence_vs_truthy (i : Nat) (e : UsageExample)
    (rest : List UsageExample) (p : Param) :
    exampleBlocks i (e :: rest) =
      Block.subheader ("Example " ++ toString i ++ ": " ++ e.title) ::
      Block.codeBlock e.code ::
      ((if e.explanation.isSome then [Block.paragraph (e.explanation.getD "")]
        else []) ++ exampleBlocks (i + 1) rest) ∧
    paramBlocks p =
      Block.subheader (p.name ++ " (" ++ p.type ++ "):") ::
      Block.paragraph p.description ::
      (if p.defaultValue.isSome ∧ p.defaultValue.getD "" ≠ "" then
        [Block.paragraph ("Default: " ++ p.defaultValue.getD "")]
       else []) ∧
    Block.paragraph "" ∈
      exampleBlocks 1 [(⟨"t", "c", some ""⟩ : UsageExample)] ∧
    (paramBlocks (⟨"n", "T", "d", some ""⟩ : Param)).length = 2 := by
  refine ⟨?_, ?_, by decide, by decide⟩
  · rcases he : e.explanation with _ | t <;> simp [exampleBlocks, he]
  · rcases hd : p.defaultValue with _ | v
    · simp [paramBlocks, hd]
    · by_cases hv : v = "" <;> simp [paramBlocks, hd, hv]
